import Mathlib

/-!
# QuickCritic — verification of the analysis request handler

Shallow embedding of the two Deno edge-function handler variants found in
`src/unnamed/part_001` of the `quickcritic` repository:
  * the *richer* variant (lines 26–316): 6 pros / 2 cons caps, category and
    store data, Firecrawl scrape fallback on a failed page fetch;
  * the *simpler* variant (lines 342–620): 3 pros / 3 cons caps, a failed
    page fetch aborts the request with status 500.

Modelling conventions:
  * Timestamps are `Int` milliseconds since the epoch (`Date.getTime()`);
    `new Date(a) > new Date(b)` becomes `b < a` on those integers.
  * JavaScript numbers are modelled by `Rat` (the claims under scrutiny
    concern numeric inputs only); `Math.round` is `⌊x + 1/2⌋`
    (round half towards +∞), `Math.min`/`Math.max` are `min`/`max`.
  * SQL `NULL` / JS `null`-or-`undefined` are `Option.none`.  Decimal-string
    columns (`price`, `rating`, `sentiment_score`) are modelled by the
    rational value the stored string denotes: a stored decimal string is a
    non-empty string, hence JS-truthy, and `parseFloat` recovers its value.
  * External effects (the DB read, the page fetch, the Firecrawl call, the
    LLM call, the DB upsert) are recorded in an in-order trace, and their
    outcomes are oracles supplied by an environment record, so "performs no
    X" is "no `X` entry appears in the trace".
  * The results of `html.match(regex)` (the capture group, a string, or no
    match) are environment oracles; `extractMeta` applies the global
    removal of `"` characters that the source performs on the capture.
  * The result of the fenced-JSON parse of the model content (the whole
    `try` block around `JSON.parse`) is an oracle `Option` value: `none`
    models a thrown parse error.
-/

namespace QuickCritic

/-- Semantics of `Response.ok` in the Fetch API: status in the inclusive
range 200–299. -/
def respOk (status : Nat) : Bool :=
  200 ≤ status && status < 300

/-- JavaScript `Math.round` on a (finite) number: round half towards +∞. -/
def jsRound (q : Rat) : Int :=
  ⌊q + 1/2⌋

/-- The score normalization `Math.min(100, Math.max(0, Math.round(score)))`
of part_001 lines 269 and 570. -/
def normScore (q : Rat) : Int :=
  min 100 (max 0 (jsRound q))

/-- The sentiment clamp `Math.min(1, Math.max(-1, s))` of part_001
lines 270 and 571. -/
def clampSentiment (q : Rat) : Rat :=
  min 1 (max (-1) q)

/-- The pros/cons normalization `Array.isArray(x) ? x.slice(0, n) : []`
of part_001 lines 272–273 and 573–574.  `none` models a value that is not
an array. -/
def jsArrSlice (n : Nat) (x : Option (List String)) : List String :=
  match x with
  | some l => l.take n
  | none => []

/-- JavaScript `s.replace(/"/g, '')`: a global replace of the one-character
pattern `"` with the empty string, i.e. every `"` character is dropped. -/
def removeQuotes (s : String) : String :=
  String.mk (s.data.filter (fun c => c ≠ '"'))

/-- The helper `extractMeta` of part_001 lines 138–141 / 455–458, applied
to the outcome of `html.match(new RegExp(pattern, 'i'))`: `none` when the match
failed, `some capture` when it produced capture group `match[1]`.  The
source returns `match[1].replace(/"/g, '')`. -/
def extractMeta (capture : Option String) : Option String :=
  capture.map removeQuotes

/-- JS `||` on two nullable strings: the left operand is kept when truthy
(non-null and non-empty), otherwise the right operand is returned as-is. -/
def jsOrS (a b : Option String) : Option String :=
  match a with
  | some s => if s = "" then b else some s
  | none => b

/-- JS `a || d` where `d` is a (truthy) string default. -/
def jsOrStr (a : Option String) (d : String) : String :=
  match a with
  | some s => if s = "" then d else s
  | none => d

/-- JS `a || null` on a nullable string: falsy values collapse to null. -/
def jsOrNull (a : Option String) : Option String :=
  match a with
  | some s => if s = "" then none else some s
  | none => none

/-- Truthiness of an optional environment string (`Deno.env.get` result):
present and non-empty. -/
def envTruthy (a : Option String) : Bool :=
  match a with
  | some s => s ≠ ""
  | none => false

/-- The `url` field of the parsed request body, as the untyped JS value the
handler inspects: absent/null/undefined, a string, or a non-string value
(with its truthiness). -/
inductive JsVal where
  | missing
  | str (s : String)
  | nonStr (truthy : Bool)
deriving DecidableEq

/-- A row of `product_inspections` as the cache lookup returns it
(decimal-string columns modelled by their rational values, `NULL` by
`none`). -/
structure CachedRecord where
  url : String
  title : Option String
  image : Option String
  description : Option String
  price : Option Rat
  currency : Option String
  rating : Option Rat
  ai_score : Int
  short_review : String
  pros : List String
  cons : List String
  sentiment_score : Option Rat
  cached_until : Int
deriving DecidableEq

/-- The `AnalysisResult` record the handler builds and upserts
(part_001 lines 8–24 / 259–275 and 324–340 / 560–576). -/
structure AnalysisResult where
  url : String
  domain : String
  fetched_at : Int
  title : String
  image : Option String
  description : Option String
  price : Option Rat
  currency : Option String
  rating : Option Rat
  ai_score : Int
  sentiment_score : Rat
  short_review : String
  pros : List String
  cons : List String
  cached_until : Int
deriving DecidableEq

/-- One entry of `category_scores` in the richer variant. -/
structure CategoryScore where
  label : String
  score : Rat
deriving DecidableEq

/-- One entry of `stores` in the richer variant. -/
structure StoreEntry where
  name : String
  url : String
  price : Option String
deriving DecidableEq

/-- The parsed model output of the simpler variant (`aiAnalysis`).
`pros`/`cons` are `none` when the field is not an array. -/
structure AIAnalysisSimple where
  score : Rat
  short_review : String
  pros : Option (List String)
  cons : Option (List String)
  sentiment_score : Rat
deriving DecidableEq

/-- The parsed model output of the richer variant (`aiAnalysis`).
`stores := none` models a falsy `stores` field (the source applies
`aiAnalysis.stores || []`). -/
structure AIAnalysisRich where
  category : String
  score : Rat
  category_scores : List CategoryScore
  short_review : String
  pros : Option (List String)
  cons : Option (List String)
  sentiment_score : Rat
  stores : Option (List StoreEntry)
  reviews_summary : String
  sources_count : Int
deriving DecidableEq

/-- The fixed fallback analysis of the simpler variant
(part_001 lines 547–553), substituted when the model content fails to
parse. -/
def fallbackSimple : AIAnalysisSimple :=
  { score := 75
    short_review := "Product analysis completed. Please check product details for more information."
    pros := some ["Available for purchase", "Listed on reputable platform", "Product information provided"]
    cons := some ["Limited analysis data", "Manual review recommended", "Details may vary"]
    sentiment_score := 1/2 }

/-- The fixed fallback analysis of the richer variant
(part_001 lines 237–253). -/
def fallbackRich : AIAnalysisRich :=
  { category := "General"
    score := 75
    category_scores :=
      [ { label := "Quality", score := 75 }
      , { label := "Value", score := 70 }
      , { label := "Features", score := 80 }
      , { label := "Reliability", score := 75 } ]
    short_review := "Product analysis completed."
    pros := some ["Available", "Listed", "Accessible", "Online", "Verified", "Reputable"]
    cons := some ["Limited data", "Manual review recommended"]
    sentiment_score := 1/2
    stores := some []
    reviews_summary := "Limited review data available."
    sources_count := 0 }

/-- One external side effect of a handler run, recorded in order. -/
inductive Effect where
  | cacheLookup (url : String)
  | pageFetch (url : String)
  | firecrawl (url : String)
  | llmCall
  | upsert (record : AnalysisResult)
deriving DecidableEq

/-- A handler response: an error with its HTTP status and message body, or
a 200 success with a JSON body of type `α`. -/
inductive Resp (α : Type) where
  | error (status : Nat) (msg : String)
  | success (body : α)
deriving DecidableEq

/-- HTTP status of a response (successes are sent with the default 200). -/
def Resp.status {α : Type} : Resp α → Nat
  | .error s _ => s
  | .success _ => 200

/-- The `meta` sub-object of the success body. -/
structure MetaOut where
  title : Option String
  image : Option String
  description : Option String
  price : Option Rat
  currency : Option String
  rating : Option Rat
deriving DecidableEq

/-- The `ai` sub-object of the success body in the simpler variant. -/
structure AiOutS where
  score : Int
  short_review : String
  pros : List String
  cons : List String
  sentiment_score : Rat
deriving DecidableEq

/-- The `ai` sub-object of the success body in the richer variant.  The
extended fields are `Option` because the cache-hit branch of the richer
variant builds an `ai` object without them (part_001 lines 78–84). -/
structure AiOutR where
  score : Int
  short_review : String
  pros : List String
  cons : List String
  sentiment_score : Rat
  category : Option String
  category_scores : Option (List CategoryScore)
  stores : Option (List StoreEntry)
  reviews_summary : Option String
  sources_count : Option Int
deriving DecidableEq

/-- Success body of the simpler variant. -/
structure BodyS where
  url : String
  meta : MetaOut
  ai : AiOutS
deriving DecidableEq

/-- Success body of the richer variant. -/
structure BodyR where
  url : String
  meta : MetaOut
  ai : AiOutR
deriving DecidableEq

/-- Environment oracles of one simpler-variant run: outcomes of URL
parsing, the cache read, the page fetch (its status and the six regex
captures over its body), the LLM call, and the upsert. -/
structure EnvS where
  parseURL : String → Option String
  cached : Option CachedRecord
  now : Int
  pageStatus : Nat
  titleTagCap : Option String
  ogTitleCap : Option String
  ogImageCap : Option String
  imgSrcCap : Option String
  ogDescCap : Option String
  nameDescCap : Option String
  aiStatus : Nat
  aiParse : Option AIAnalysisSimple
  nowPersist : Int
  upsertError : Bool

/-- Environment oracles of one richer-variant run; additionally carries the
Firecrawl configuration and call outcome. -/
structure EnvR where
  parseURL : String → Option String
  cached : Option CachedRecord
  now : Int
  pageStatus : Nat
  titleTagCap : Option String
  ogTitleCap : Option String
  ogImageCap : Option String
  imgSrcCap : Option String
  ogDescCap : Option String
  nameDescCap : Option String
  firecrawlKey : Option String
  fcOk : Bool
  fcTitle : Option String
  fcOgImage : Option String
  fcDescription : Option String
  aiStatus : Nat
  aiParse : Option AIAnalysisRich
  nowPersist : Int
  upsertError : Bool

/-- Reshaping of a fresh cache row into the response body, simpler variant
(part_001 lines 391–411): decimal strings are parsed (`parseFloat`), a
`NULL` sentiment becomes `0`. -/
def reshapeCachedS (c : CachedRecord) : BodyS :=
  { url := c.url
    meta :=
      { title := c.title
        image := c.image
        description := c.description
        price := c.price
        currency := c.currency
        rating := c.rating }
    ai :=
      { score := c.ai_score
        short_review := c.short_review
        pros := c.pros
        cons := c.cons
        sentiment_score := c.sentiment_score.getD 0 } }

/-- Reshaping of a fresh cache row into the response body, richer variant
(part_001 lines 67–87): same fields, extended `ai` fields absent. -/
def reshapeCachedR (c : CachedRecord) : BodyR :=
  { url := c.url
    meta :=
      { title := c.title
        image := c.image
        description := c.description
        price := c.price
        currency := c.currency
        rating := c.rating }
    ai :=
      { score := c.ai_score
        short_review := c.short_review
        pros := c.pros
        cons := c.cons
        sentiment_score := c.sentiment_score.getD 0
        category := none
        category_scores := none
        stores := none
        reviews_summary := none
        sources_count := none } }

/-- The freshness test `cached && new Date(cached.cached_until) > new Date()`
of part_001 lines 65 and 389. -/
def cacheFresh (cached : Option CachedRecord) (now : Int) : Bool :=
  match cached with
  | some c => now < c.cached_until
  | none => false

/-- Twenty-four hours in milliseconds, `24 * 60 * 60 * 1000`
(part_001 lines 257 and 558). -/
def dayMs : Int := 24 * 60 * 60 * 1000

/-- The `result` record of the simpler variant (part_001 lines 560–576). -/
def mkResultS (url domain : String) (env : EnvS) (title : String)
    (image description : Option String) (a : AIAnalysisSimple) : AnalysisResult :=
  { url := url
    domain := domain
    fetched_at := env.nowPersist
    title := title
    image := image
    description := description
    price := none
    currency := none
    rating := none
    ai_score := normScore a.score
    sentiment_score := clampSentiment a.sentiment_score
    short_review := a.short_review
    pros := jsArrSlice 3 a.pros
    cons := jsArrSlice 3 a.cons
    cached_until := env.nowPersist + dayMs }

/-- The `result` record of the richer variant (part_001 lines 259–275). -/
def mkResultR (url domain : String) (env : EnvR) (title : String)
    (image description : Option String) (a : AIAnalysisRich) : AnalysisResult :=
  { url := url
    domain := domain
    fetched_at := env.nowPersist
    title := title
    image := image
    description := description
    price := none
    currency := none
    rating := none
    ai_score := normScore a.score
    sentiment_score := clampSentiment a.sentiment_score
    short_review := a.short_review
    pros := jsArrSlice 6 a.pros
    cons := jsArrSlice 2 a.cons
    cached_until := env.nowPersist + dayMs }

/-- The fresh-result response body of the simpler variant
(part_001 lines 591–611). -/
def mkBodyS (r : AnalysisResult) : BodyS :=
  { url := r.url
    meta :=
      { title := some r.title
        image := r.image
        description := r.description
        price := r.price
        currency := r.currency
        rating := r.rating }
    ai :=
      { score := r.ai_score
        short_review := r.short_review
        pros := r.pros
        cons := r.cons
        sentiment_score := r.sentiment_score } }

/-- The fresh-result response body of the richer variant
(part_001 lines 281–306): extended `ai` fields come straight from
`aiAnalysis`, with `stores := aiAnalysis.stores || []`. -/
def mkBodyR (r : AnalysisResult) (a : AIAnalysisRich) : BodyR :=
  { url := r.url
    meta :=
      { title := some r.title
        image := r.image
        description := r.description
        price := r.price
        currency := r.currency
        rating := r.rating }
    ai :=
      { score := r.ai_score
        short_review := r.short_review
        pros := r.pros
        cons := r.cons
        sentiment_score := r.sentiment_score
        category := some a.category
        category_scores := some a.category_scores
        stores := some (a.stores.getD [])
        reviews_summary := some a.reviews_summary
        sources_count := some a.sources_count } }

/-- The title chain `extractMeta(titlePattern) || extractMeta(ogTitlePattern)`
followed by the default string `"Product"` (part_001 lines 143–145 /
460–462). -/
def extractedTitle (t1 t2 : Option String) : String :=
  jsOrStr (jsOrS (extractMeta t1) (extractMeta t2)) "Product"

/-- The image / description chain `extractMeta(p1) || extractMeta(p2)`
(part_001 lines 146–149 / 463–466). -/
def extractedPair (a b : Option String) : Option String :=
  jsOrS (extractMeta a) (extractMeta b)

/-- The page-fetch error message of the simpler variant
(part_001 lines 434–443). -/
def pageErrMsg (status : Nat) : String :=
  "Unable to access this product page. " ++
    (if status = 429 ∨ status = 529 then
      "The website is blocking automated requests. Try a different product or wait a few minutes."
    else if status = 403 then "Access to this page is restricted."
    else if status = 404 then "Product page not found. Please check the URL."
    else "Please try again or use a different product URL.")

/-- The LLM step of the simpler variant (part_001 lines 494–611): gateway
error mapping, parse-or-fallback, normalization, upsert, response. -/
def simpleAI (url domain : String) (env : EnvS) (title : String)
    (image description : Option String) (pre : List Effect) :
    Resp BodyS × List Effect :=
  let eff := pre ++ [Effect.llmCall]
  if respOk env.aiStatus then
    let a := env.aiParse.getD fallbackSimple
    let r := mkResultS url domain env title image description a
    (.success (mkBodyS r), eff ++ [Effect.upsert r])
  else if env.aiStatus = 429 then
    (.error 429 "AI rate limit exceeded. Please try again later.", eff)
  else if env.aiStatus = 402 then
    (.error 402 "AI credits exhausted. Please add credits to your workspace.", eff)
  else
    (.error 500 "AI analysis failed", eff)

/-- The page-fetch step of the simpler variant (part_001 lines 416–466):
a non-ok status aborts with a classified 500; otherwise the metadata is
extracted from the body and the LLM step runs. -/
def simpleFetch (url domain : String) (env : EnvS) (pre : List Effect) :
    Resp BodyS × List Effect :=
  let eff := pre ++ [Effect.pageFetch url]
  if respOk env.pageStatus then
    simpleAI url domain env (extractedTitle env.titleTagCap env.ogTitleCap)
      (extractedPair env.ogImageCap env.imgSrcCap)
      (extractedPair env.ogDescCap env.nameDescCap) eff
  else
    (.error 500 (pageErrMsg env.pageStatus), eff)

/-- The simpler-variant handler (part_001 lines 342–620), from the parsed
request body onwards. -/
def handlerSimple (u : JsVal) (env : EnvS) : Resp BodyS × List Effect :=
  match u with
  | .str s =>
    if s = "" then (.error 400 "Valid product URL is required", [])
    else
      match env.parseURL s with
      | none => (.error 400 "Invalid URL format", [])
      | some domain =>
        match env.cached with
        | some c =>
          if env.now < c.cached_until then
            (.success (reshapeCachedS c), [Effect.cacheLookup s])
          else simpleFetch s domain env [Effect.cacheLookup s]
        | none => simpleFetch s domain env [Effect.cacheLookup s]
  | _ => (.error 400 "Valid product URL is required", [])

/-- The LLM step of the richer variant (part_001 lines 186–306). -/
def richAI (url domain : String) (env : EnvR) (title : String)
    (image description : Option String) (pre : List Effect) :
    Resp BodyR × List Effect :=
  let eff := pre ++ [Effect.llmCall]
  if respOk env.aiStatus then
    let a := env.aiParse.getD fallbackRich
    let r := mkResultR url domain env title image description a
    (.success (mkBodyR r a), eff ++ [Effect.upsert r])
  else if env.aiStatus = 429 then
    (.error 429 "AI rate limit exceeded. Please try again later.", eff)
  else if env.aiStatus = 402 then
    (.error 402 "AI credits exhausted. Please add credits to your workspace.", eff)
  else
    (.error 500 "AI analysis failed", eff)

/-- The page-fetch step of the richer variant (part_001 lines 92–150):
on a non-ok status, if a Firecrawl key is configured and the status is
429/529/403 a Firecrawl scrape is attempted (its metadata, when the call
succeeds, overrides the defaults); the request then proceeds to the LLM
step in every case. -/
def richFetch (url domain : String) (env : EnvR) (pre : List Effect) :
    Resp BodyR × List Effect :=
  let eff := pre ++ [Effect.pageFetch url]
  if respOk env.pageStatus then
    richAI url domain env (extractedTitle env.titleTagCap env.ogTitleCap)
      (extractedPair env.ogImageCap env.imgSrcCap)
      (extractedPair env.ogDescCap env.nameDescCap) eff
  else if envTruthy env.firecrawlKey &&
      (env.pageStatus = 429 || env.pageStatus = 529 || env.pageStatus = 403) then
    let eff := eff ++ [Effect.firecrawl url]
    if env.fcOk then
      richAI url domain env (jsOrStr env.fcTitle ("Product"))
        (jsOrNull env.fcOgImage) (jsOrNull env.fcDescription) eff
    else
      richAI url domain env ("Product") none none eff
  else
    richAI url domain env ("Product") none none eff

/-- The richer-variant handler (part_001 lines 26–316), from the parsed
request body onwards. -/
def handlerRich (u : JsVal) (env : EnvR) : Resp BodyR × List Effect :=
  match u with
  | .str s =>
    if s = "" then (.error 400 "Valid product URL is required", [])
    else
      match env.parseURL s with
      | none => (.error 400 "Invalid URL format", [])
      | some domain =>
        match env.cached with
        | some c =>
          if env.now < c.cached_until then
            (.success (reshapeCachedR c), [Effect.cacheLookup s])
          else richFetch s domain env [Effect.cacheLookup s]
        | none => richFetch s domain env [Effect.cacheLookup s]
  | _ => (.error 400 "Valid product URL is required", [])

/-! ## Concrete runs used as evaluation witnesses -/

/-- A concrete product url. -/
def urlW : String := "https://example.com/widget"

/-- The hostname of `urlW`. -/
def domW : String := "example.com"

/-- A concrete stored cache row for `urlW`, valid until t = 10 ms. -/
def cW : CachedRecord :=
  { url := urlW
    title := some ("Widget")
    image := none
    description := some ("A nice widget")
    price := some 5
    currency := some ("USD")
    rating := none
    ai_score := 92
    short_review := "Good."
    pros := ["solid", "cheap"]
    cons := ["loud"]
    sentiment_score := none
    cached_until := 10 }

/-- A concrete simpler-variant environment: empty cache, page 200 with a
title capture, gateway 200, model content unparseable. -/
def envW : EnvS :=
  { parseURL := fun _ => some (domW)
    cached := none
    now := 0
    pageStatus := 200
    titleTagCap := some ("Widget")
    ogTitleCap := none
    ogImageCap := none
    imgSrcCap := none
    ogDescCap := none
    nameDescCap := none
    aiStatus := 200
    aiParse := none
    nowPersist := 100
    upsertError := false }

/-- A concrete richer-variant environment, matching `envW`. -/
def envWR : EnvR :=
  { parseURL := fun _ => some (domW)
    cached := none
    now := 0
    pageStatus := 200
    titleTagCap := some ("Widget")
    ogTitleCap := none
    ogImageCap := none
    imgSrcCap := none
    ogDescCap := none
    nameDescCap := none
    firecrawlKey := none
    fcOk := false
    fcTitle := none
    fcOgImage := none
    fcDescription := none
    aiStatus := 200
    aiParse := none
    nowPersist := 100
    upsertError := false }

/-- Simpler-variant environment with a fresh cache row. -/
def envWhitS : EnvS := { envW with cached := some cW }

/-- Richer-variant environment with a fresh cache row. -/
def envWhitR : EnvR := { envWR with cached := some cW }

/-- Simpler-variant environment whose gateway answers 429. -/
def envW429S : EnvS := { envW with aiStatus := 429 }

/-- Richer-variant environment whose origin page and gateway both answer
429 (no Firecrawl key configured). -/
def envW429R : EnvR := { envWR with pageStatus := 429, aiStatus := 429 }

/-- Simpler-variant environment whose gateway answers 402. -/
def envW402S : EnvS := { envW with aiStatus := 402 }

/-- Richer-variant environment whose gateway answers 402. -/
def envW402R : EnvR := { envWR with aiStatus := 402 }

/-- Simpler-variant environment whose origin page answers 429. -/
def envWpage429 : EnvS := { envW with pageStatus := 429 }

/-- Simpler-variant environment whose URL parser rejects every input. -/
def envWbadS : EnvS := { envW with parseURL := fun _ => none }

/-- Richer-variant environment whose URL parser rejects every input. -/
def envWbadR : EnvR := { envWR with parseURL := fun _ => none }

/-- The fresh record the simpler variant computes and upserts under
`envW`. -/
def rsW : AnalysisResult :=
  mkResultS urlW domW envW
    (extractedTitle envW.titleTagCap envW.ogTitleCap)
    (extractedPair envW.ogImageCap envW.imgSrcCap)
    (extractedPair envW.ogDescCap envW.nameDescCap)
    (envW.aiParse.getD fallbackSimple)

/-- The fresh record the richer variant computes and upserts under
`envWR`. -/
def rrW : AnalysisResult :=
  mkResultR urlW domW envWR
    (extractedTitle envWR.titleTagCap envWR.ogTitleCap)
    (extractedPair envWR.ogImageCap envWR.imgSrcCap)
    (extractedPair envWR.ogDescCap envWR.nameDescCap)
    (envWR.aiParse.getD fallbackRich)

/-! ## Helper lemmas shared across the claims -/

/-- A trace fragment contains no upsert entry. -/
def noUpserts (l : List Effect) : Prop :=
  ∀ x ∈ l, ∀ rec, x ≠ Effect.upsert rec

theorem noUpserts_append {l1 l2 : List Effect} (h1 : noUpserts l1) (h2 : noUpserts l2) :
    noUpserts (l1 ++ l2) := by
  intro x hx rec
  rcases List.mem_append.mp hx with h | h
  · exact h1 x h rec
  · exact h2 x h rec

theorem noUpserts_pageFetch (url : String) : noUpserts [Effect.pageFetch url] := by
  intro x hx rec
  simp_all

theorem noUpserts_firecrawl (url : String) : noUpserts [Effect.firecrawl url] := by
  intro x hx rec
  simp_all

theorem noUpserts_cacheLookup (url : String) : noUpserts [Effect.cacheLookup url] := by
  intro x hx rec
  simp_all

/-- Any upsert in a `simpleAI` trace is either inherited from the prefix or
is exactly the normalized fresh record. -/
theorem upsert_simpleAI (url dom : String) (env : EnvS) (t : String) (i d : Option String)
    (pre : List Effect) (r : AnalysisResult)
    (h : Effect.upsert r ∈ (simpleAI url dom env t i d pre).2) :
    Effect.upsert r ∈ pre ∨ r = mkResultS url dom env t i d (env.aiParse.getD fallbackSimple) := by
  unfold simpleAI at h
  split at h
  · simp_all
  · split at h
    · simp_all
    · split at h <;> simp_all

/-- Any upsert in a `richAI` trace is either inherited from the prefix or
is exactly the normalized fresh record. -/
theorem upsert_richAI (url dom : String) (env : EnvR) (t : String) (i d : Option String)
    (pre : List Effect) (r : AnalysisResult)
    (h : Effect.upsert r ∈ (richAI url dom env t i d pre).2) :
    Effect.upsert r ∈ pre ∨ r = mkResultR url dom env t i d (env.aiParse.getD fallbackRich) := by
  unfold richAI at h
  split at h
  · simp_all
  · split at h
    · simp_all
    · split at h <;> simp_all

/-- Any record upserted by the simpler fetch-and-analyze flow carries
`cached_until = fetched_at + 24h` with `fetched_at` the persistence-time
clock reading. -/
theorem upsert_simpleFetch (url dom : String) (env : EnvS) (pre : List Effect)
    (hpre : noUpserts pre) (r : AnalysisResult)
    (hm : Effect.upsert r ∈ (simpleFetch url dom env pre).2) :
    r.cached_until = r.fetched_at + dayMs ∧ r.fetched_at = env.nowPersist := by
  unfold simpleFetch at hm
  split at hm
  · rcases upsert_simpleAI url dom env _ _ _ _ r hm with hin | heq
    · exact absurd rfl (noUpserts_append hpre (noUpserts_pageFetch url) _ hin r)
    · subst heq
      simp [mkResultS]
  · simp at hm
    exact absurd rfl (hpre _ hm r)

/-- Any record upserted by the richer fetch-and-analyze flow carries
`cached_until = fetched_at + 24h` with `fetched_at` the persistence-time
clock reading. -/
theorem upsert_richFetch (url dom : String) (env : EnvR) (pre : List Effect)
    (hpre : noUpserts pre) (r : AnalysisResult)
    (hm : Effect.upsert r ∈ (richFetch url dom env pre).2) :
    r.cached_until = r.fetched_at + dayMs ∧ r.fetched_at = env.nowPersist := by
  have noup : ∀ (l : List Effect) t i d, noUpserts l →
      Effect.upsert r ∈ (richAI url dom env t i d l).2 →
      r.cached_until = r.fetched_at + dayMs ∧ r.fetched_at = env.nowPersist := by
    intro l t i d hl hm2
    rcases upsert_richAI url dom env t i d l r hm2 with hin | heq
    · exact absurd rfl (hl _ hin r)
    · subst heq
      simp [mkResultR]
  have h1 := noUpserts_pageFetch url
  unfold richFetch at hm
  split at hm
  · exact noup _ _ _ _ (noUpserts_append hpre h1) hm
  · split at hm
    · split at hm
      · exact noup _ _ _ _
          (noUpserts_append (noUpserts_append hpre h1) (noUpserts_firecrawl url)) hm
      · exact noup _ _ _ _
          (noUpserts_append (noUpserts_append hpre h1) (noUpserts_firecrawl url)) hm
    · exact noup _ _ _ _ (noUpserts_append hpre h1) hm

/-- With a valid url and a stale or absent cache row, the simpler handler
runs the fetch-and-analyze flow. -/
theorem handlerSimple_stale (s dom : String) (env : EnvS) (hs : s ≠ "")
    (hp : env.parseURL s = some dom)
    (hfresh : cacheFresh env.cached env.now = false) :
    handlerSimple (.str s) env = simpleFetch s dom env [Effect.cacheLookup s] := by
  cases hc : env.cached with
  | none => simp only [handlerSimple, if_neg hs, hp, hc]
  | some c =>
    have hnf : ¬ env.now < c.cached_until := by
      simp [cacheFresh, hc] at hfresh
      omega
    simp only [handlerSimple, if_neg hs, hp, hc, if_neg hnf]

/-- With a valid url and a stale or absent cache row, the richer handler
runs the fetch-and-analyze flow. -/
theorem handlerRich_stale (s dom : String) (env : EnvR) (hs : s ≠ "")
    (hp : env.parseURL s = some dom)
    (hfresh : cacheFresh env.cached env.now = false) :
    handlerRich (.str s) env = richFetch s dom env [Effect.cacheLookup s] := by
  cases hc : env.cached with
  | none => simp only [handlerRich, if_neg hs, hp, hc]
  | some c =>
    have hnf : ¬ env.now < c.cached_until := by
      simp [cacheFresh, hc] at hfresh
      omega
    simp only [handlerRich, if_neg hs, hp, hc, if_neg hnf]

/-- Full description of a successful simpler-variant run: stale cache,
page ok, gateway ok. -/
theorem run_simple_success (s dom : String) (env : EnvS) (hs : s ≠ "")
    (hp : env.parseURL s = some dom)
    (hfresh : cacheFresh env.cached env.now = false)
    (hpage : respOk env.pageStatus = true)
    (hok : respOk env.aiStatus = true) :
    handlerSimple (.str s) env =
      (.success (mkBodyS (mkResultS s dom env
          (extractedTitle env.titleTagCap env.ogTitleCap)
          (extractedPair env.ogImageCap env.imgSrcCap)
          (extractedPair env.ogDescCap env.nameDescCap)
          (env.aiParse.getD fallbackSimple))),
       [Effect.cacheLookup s, Effect.pageFetch s, Effect.llmCall,
        Effect.upsert (mkResultS s dom env
          (extractedTitle env.titleTagCap env.ogTitleCap)
          (extractedPair env.ogImageCap env.imgSrcCap)
          (extractedPair env.ogDescCap env.nameDescCap)
          (env.aiParse.getD fallbackSimple))]) := by
  rw [handlerSimple_stale s dom env hs hp hfresh]
  unfold simpleFetch simpleAI
  simp [hpage, hok]

/-- Full description of a successful richer-variant run on the page-ok
path: stale cache, page ok, gateway ok. -/
theorem run_rich_success (s dom : String) (env : EnvR) (hs : s ≠ "")
    (hp : env.parseURL s = some dom)
    (hfresh : cacheFresh env.cached env.now = false)
    (hpage : respOk env.pageStatus = true)
    (hok : respOk env.aiStatus = true) :
    handlerRich (.str s) env =
      (.success (mkBodyR (mkResultR s dom env
          (extractedTitle env.titleTagCap env.ogTitleCap)
          (extractedPair env.ogImageCap env.imgSrcCap)
          (extractedPair env.ogDescCap env.nameDescCap)
          (env.aiParse.getD fallbackRich)) (env.aiParse.getD fallbackRich)),
       [Effect.cacheLookup s, Effect.pageFetch s, Effect.llmCall,
        Effect.upsert (mkResultR s dom env
          (extractedTitle env.titleTagCap env.ogTitleCap)
          (extractedPair env.ogImageCap env.imgSrcCap)
          (extractedPair env.ogDescCap env.nameDescCap)
          (env.aiParse.getD fallbackRich))]) := by
  rw [handlerRich_stale s dom env hs hp hfresh]
  unfold richFetch richAI
  simp [hpage, hok]

/-- The gateway error mapping of `richAI`, on a non-ok gateway status:
the whole LLM step evaluates to the classified error with no upsert. -/
theorem richAI_fail (url dom : String) (env : EnvR) (t : String) (i d : Option String)
    (pre : List Effect) (hnot : respOk env.aiStatus = false) :
    richAI url dom env t i d pre =
      ((if env.aiStatus = 429 then
          .error 429 "AI rate limit exceeded. Please try again later."
        else if env.aiStatus = 402 then
          .error 402 "AI credits exhausted. Please add credits to your workspace."
        else .error 500 "AI analysis failed"),
       pre ++ [Effect.llmCall]) := by
  unfold richAI
  by_cases h4 : env.aiStatus = 429
  · simp [hnot, h4, respOk]
  · by_cases h2 : env.aiStatus = 402
    · simp [hnot, h4, h2, respOk]
    · simp [hnot, h4, h2]

/-- The gateway error mapping of `simpleAI`, on a non-ok gateway status. -/
theorem simpleAI_fail (url dom : String) (env : EnvS) (t : String) (i d : Option String)
    (pre : List Effect) (hnot : respOk env.aiStatus = false) :
    simpleAI url dom env t i d pre =
      ((if env.aiStatus = 429 then
          .error 429 "AI rate limit exceeded. Please try again later."
        else if env.aiStatus = 402 then
          .error 402 "AI credits exhausted. Please add credits to your workspace."
        else .error 500 "AI analysis failed"),
       pre ++ [Effect.llmCall]) := by
  unfold simpleAI
  by_cases h4 : env.aiStatus = 429
  · simp [hnot, h4, respOk]
  · by_cases h2 : env.aiStatus = 402
    · simp [hnot, h4, h2, respOk]
    · simp [hnot, h4, h2]

/-- On a non-ok gateway status, the richer handler (with a valid url and a
stale cache) returns the classified gateway error, upserts nothing, and has
called the model — on every page-fetch branch. -/
theorem handlerRich_ai_fail (s dom : String) (env : EnvR) (hs : s ≠ "")
    (hp : env.parseURL s = some dom)
    (hfresh : cacheFresh env.cached env.now = false)
    (hnot : respOk env.aiStatus = false) :
    (handlerRich (.str s) env).1 =
      (if env.aiStatus = 429 then
        .error 429 "AI rate limit exceeded. Please try again later."
      else if env.aiStatus = 402 then
        .error 402 "AI credits exhausted. Please add credits to your workspace."
      else .error 500 "AI analysis failed") ∧
    (∀ r, Effect.upsert r ∉ (handlerRich (.str s) env).2) ∧
    Effect.llmCall ∈ (handlerRich (.str s) env).2 := by
  rw [handlerRich_stale s dom env hs hp hfresh]
  unfold richFetch
  split
  · rw [richAI_fail _ _ _ _ _ _ _ hnot]
    refine ⟨rfl, ?_, by simp⟩
    intro r hr
    simp at hr
  · split
    · split
      · rw [richAI_fail _ _ _ _ _ _ _ hnot]
        refine ⟨rfl, ?_, by simp⟩
        intro r hr
        simp at hr
      · rw [richAI_fail _ _ _ _ _ _ _ hnot]
        refine ⟨rfl, ?_, by simp⟩
        intro r hr
        simp at hr
    · rw [richAI_fail _ _ _ _ _ _ _ hnot]
      refine ⟨rfl, ?_, by simp⟩
      intro r hr
      simp at hr

/-- On a non-ok gateway status, the simpler handler (valid url, stale
cache, page ok) returns the classified gateway error and upserts
nothing. -/
theorem handlerSimple_ai_fail (s dom : String) (env : EnvS) (hs : s ≠ "")
    (hp : env.parseURL s = some dom)
    (hfresh : cacheFresh env.cached env.now = false)
    (hpage : respOk env.pageStatus = true)
    (hnot : respOk env.aiStatus = false) :
    (handlerSimple (.str s) env).1 =
      (if env.aiStatus = 429 then
        .error 429 "AI rate limit exceeded. Please try again later."
      else if env.aiStatus = 402 then
        .error 402 "AI credits exhausted. Please add credits to your workspace."
      else .error 500 "AI analysis failed") ∧
    (∀ r, Effect.upsert r ∉ (handlerSimple (.str s) env).2) := by
  rw [handlerSimple_stale s dom env hs hp hfresh]
  unfold simpleFetch
  rw [if_pos hpage, simpleAI_fail _ _ _ _ _ _ _ hnot]
  refine ⟨rfl, ?_⟩
  intro r hr
  simp at hr

/-- No character of a quote-stripped string is a double quote. -/
theorem removeQuotes_no_quote (s : String) : ∀ c ∈ (removeQuotes s).data, c ≠ '"' := by
  intro c hc
  have hd : (removeQuotes s).data = s.data.filter (fun c => c ≠ '"') := rfl
  rw [hd] at hc
  simpa using (List.mem_filter.mp hc).2

/-- Every present value produced by an image / description extraction chain
is quote-free. -/
theorem extractedPair_no_quote (a b : Option String) :
    ∀ v, extractedPair a b = some v → ∀ c ∈ v.data, c ≠ '"' := by
  intro v hv c hc
  unfold extractedPair jsOrS extractMeta at hv
  cases a with
  | none =>
    cases b with
    | none => simp at hv
    | some sb =>
      simp at hv
      subst hv
      exact removeQuotes_no_quote sb c hc
  | some sa =>
    simp at hv
    split at hv
    · cases b with
      | none => simp at hv
      | some sb =>
        simp at hv
        subst hv
        exact removeQuotes_no_quote sb c hc
    · rw [Option.some_inj] at hv
      subst hv
      exact removeQuotes_no_quote sa c hc

/-- Every character of an extracted title is quote-free. -/
theorem extractedTitle_no_quote (t1 t2 : Option String) :
    ∀ c ∈ (extractedTitle t1 t2).data, c ≠ '"' := by
  intro c hc
  have hprod : '"' ∉ ("Product").data := by decide
  unfold extractedTitle at hc
  cases hx : jsOrS (extractMeta t1) (extractMeta t2) with
  | none =>
    rw [hx] at hc
    simp only [jsOrStr] at hc
    intro heq
    subst heq
    exact hprod hc
  | some s =>
    rw [hx] at hc
    simp only [jsOrStr] at hc
    split at hc
    · intro heq
      subst heq
      exact hprod hc
    · exact extractedPair_no_quote t1 t2 s hx c hc

/-- Cache-hit description of the simpler handler. -/
theorem handlerSimple_hit (s dom : String) (env : EnvS) (c : CachedRecord) (hs : s ≠ "")
    (hp : env.parseURL s = some dom) (hc : env.cached = some c)
    (hf : env.now < c.cached_until) :
    handlerSimple (.str s) env = (.success (reshapeCachedS c), [Effect.cacheLookup s]) := by
  simp [handlerSimple, hs, hp, hc, hf]

/-- Cache-hit description of the richer handler. -/
theorem handlerRich_hit (s dom : String) (env : EnvR) (c : CachedRecord) (hs : s ≠ "")
    (hp : env.parseURL s = some dom) (hc : env.cached = some c)
    (hf : env.now < c.cached_until) :
    handlerRich (.str s) env = (.success (reshapeCachedR c), [Effect.cacheLookup s]) := by
  simp [handlerRich, hs, hp, hc, hf]

/-! ## The claims -/

/-- Claim C1: for every request whose url has a stored cache record with
`cached_until` strictly later than the current time, both handler variants
return that record reshaped into the `{meta, ai}` output contract (decimal
string columns carried as their parsed numeric values, a NULL sentiment
defaulting to 0) and the effect trace holds only the cache lookup — no
page fetch, no scrape-fallback call, no LLM call and no write. -/
theorem c1_cache_hit_reshapes_record_no_calls (s domS domR : String) (hs : s ≠ "")
    (envS : EnvS) (envR : EnvR) (cS cR : CachedRecord)
    (hpS : envS.parseURL s = some domS) (hcS : envS.cached = some cS)
    (hfS : envS.now < cS.cached_until)
    (hpR : envR.parseURL s = some domR) (hcR : envR.cached = some cR)
    (hfR : envR.now < cR.cached_until) :
    handlerSimple (.str s) envS = (.success (reshapeCachedS cS), [Effect.cacheLookup s]) ∧
    handlerRich (.str s) envR = (.success (reshapeCachedR cR), [Effect.cacheLookup s]) :=
  ⟨handlerSimple_hit s domS envS cS hs hpS hcS hfS,
   handlerRich_hit s domR envR cR hs hpR hcR hfR⟩

/-- Witness for C1: a concrete fresh-cache run of both variants. -/
theorem c1_cache_hit_witness :
    handlerSimple (.str urlW) envWhitS
      = (.success (reshapeCachedS cW), [Effect.cacheLookup urlW]) ∧
    handlerRich (.str urlW) envWhitR
      = (.success (reshapeCachedR cW), [Effect.cacheLookup urlW]) :=
  c1_cache_hit_reshapes_record_no_calls urlW domW domW (by decide) envWhitS envWhitR
    cW cW rfl rfl (by decide) rfl rfl (by decide)

/-- Claim C2: for every request that reaches the persistence step, the
record written (the upsert entry of the effect trace) has
`cached_until = fetched_at + 24h` (86,400,000 ms) exactly, where
`fetched_at` is the single timestamp read after response parsing. -/
theorem c2_upsert_ttl_is_24h (uS uR : JsVal) (envS : EnvS) (envR : EnvR)
    (rS rR : AnalysisResult) :
    (Effect.upsert rS ∈ (handlerSimple uS envS).2 →
      rS.cached_until = rS.fetched_at + dayMs ∧ rS.fetched_at = envS.nowPersist) ∧
    (Effect.upsert rR ∈ (handlerRich uR envR).2 →
      rR.cached_until = rR.fetched_at + dayMs ∧ rR.fetched_at = envR.nowPersist) := by
  constructor
  · intro h
    cases uS with
    | missing => simp [handlerSimple] at h
    | nonStr b => simp [handlerSimple] at h
    | str s =>
      by_cases hs : s = ""
      · simp [handlerSimple, hs] at h
      · cases hp : envS.parseURL s with
        | none => simp [handlerSimple, hs, hp] at h
        | some dom =>
          cases hcc : envS.cached with
          | none =>
            rw [handlerSimple_stale s dom envS hs hp (by simp [cacheFresh, hcc])] at h
            exact upsert_simpleFetch s dom envS _ (noUpserts_cacheLookup s) rS h
          | some c =>
            by_cases hlt : envS.now < c.cached_until
            · rw [handlerSimple_hit s dom envS c hs hp hcc hlt] at h
              simp at h
            · rw [handlerSimple_stale s dom envS hs hp
                (by simp [cacheFresh, hcc]; omega)] at h
              exact upsert_simpleFetch s dom envS _ (noUpserts_cacheLookup s) rS h
  · intro h
    cases uR with
    | missing => simp [handlerRich] at h
    | nonStr b => simp [handlerRich] at h
    | str s =>
      by_cases hs : s = ""
      · simp [handlerRich, hs] at h
      · cases hp : envR.parseURL s with
        | none => simp [handlerRich, hs, hp] at h
        | some dom =>
          cases hcc : envR.cached with
          | none =>
            rw [handlerRich_stale s dom envR hs hp (by simp [cacheFresh, hcc])] at h
            exact upsert_richFetch s dom envR _ (noUpserts_cacheLookup s) rR h
          | some c =>
            by_cases hlt : envR.now < c.cached_until
            · rw [handlerRich_hit s dom envR c hs hp hcc hlt] at h
              simp at h
            · rw [handlerRich_stale s dom envR hs hp
                (by simp [cacheFresh, hcc]; omega)] at h
              exact upsert_richFetch s dom envR _ (noUpserts_cacheLookup s) rR h

/-- Witness for C2: both variants upsert, at a concrete successful run,
a record with the 24-hour TTL anchored at the persistence timestamp. -/
theorem c2_upsert_ttl_witness :
    (rsW.cached_until = rsW.fetched_at + dayMs ∧ rsW.fetched_at = envW.nowPersist) ∧
    (rrW.cached_until = rrW.fetched_at + dayMs ∧ rrW.fetched_at = envWR.nowPersist) := by
  constructor
  · exact (c2_upsert_ttl_is_24h (.str urlW) (.str urlW) envW envWR rsW rrW).1
      (by rw [run_simple_success urlW domW envW (by decide) rfl rfl rfl rfl]
          simp [rsW])
  · exact (c2_upsert_ttl_is_24h (.str urlW) (.str urlW) envW envWR rsW rrW).2
      (by rw [run_rich_success urlW domW envWR (by decide) rfl rfl rfl rfl]
          simp [rrW])

/-- Claim C3: score normalization is total over numeric scores and
idempotent — for every rational score the normalized value is an integer
in [0, 100], normalizing an already-normalized score changes nothing, and
150 maps to 100, -30 maps to 0 and 83.7 maps to 84. -/
theorem c3_normScore_total_range_idempotent :
    ∀ q : Rat,
      (0 ≤ normScore q ∧ normScore q ≤ 100) ∧
      normScore ((normScore q : Int) : Rat) = normScore q ∧
      normScore 150 = 100 ∧ normScore (-30) = 0 ∧ normScore (83.7 : Rat) = 84 := by
  intro q
  have hrange : ∀ r : Rat, 0 ≤ normScore r ∧ normScore r ≤ 100 := by
    intro r
    rw [normScore]
    omega
  refine ⟨hrange q, ?_, ?_, ?_, ?_⟩
  · obtain ⟨h0, h1⟩ := hrange q
    rw [normScore, jsRound, Int.floor_int_add]
    have h2 : ⌊(1/2 : Rat)⌋ = 0 := by norm_num
    rw [h2]
    omega
  · rw [normScore, jsRound]
    norm_num
  · rw [normScore, jsRound]
    norm_num
  · rw [normScore, jsRound]
    norm_num

/-- Claim C4: when the model content fails to parse as JSON (after fence
stripping), no error is returned — both variants substitute their fixed
fallback analysis object and produce the 200 success response built from
it; for the richer variant the LLM step does so on every metadata path. -/
theorem c4_parse_failure_fallback_200 (s domS domR : String) (hs : s ≠ "")
    (envS : EnvS) (envR : EnvR)
    (hpS : envS.parseURL s = some domS)
    (hfreshS : cacheFresh envS.cached envS.now = false)
    (hpageS : respOk envS.pageStatus = true)
    (hokS : respOk envS.aiStatus = true)
    (hparseS : envS.aiParse = none)
    (hpR : envR.parseURL s = some domR)
    (hfreshR : cacheFresh envR.cached envR.now = false)
    (hpageR : respOk envR.pageStatus = true)
    (hokR : respOk envR.aiStatus = true)
    (hparseR : envR.aiParse = none) :
    handlerSimple (.str s) envS =
      (.success (mkBodyS (mkResultS s domS envS
          (extractedTitle envS.titleTagCap envS.ogTitleCap)
          (extractedPair envS.ogImageCap envS.imgSrcCap)
          (extractedPair envS.ogDescCap envS.nameDescCap) fallbackSimple)),
       [Effect.cacheLookup s, Effect.pageFetch s, Effect.llmCall,
        Effect.upsert (mkResultS s domS envS
          (extractedTitle envS.titleTagCap envS.ogTitleCap)
          (extractedPair envS.ogImageCap envS.imgSrcCap)
          (extractedPair envS.ogDescCap envS.nameDescCap) fallbackSimple)]) ∧
    handlerRich (.str s) envR =
      (.success (mkBodyR (mkResultR s domR envR
          (extractedTitle envR.titleTagCap envR.ogTitleCap)
          (extractedPair envR.ogImageCap envR.imgSrcCap)
          (extractedPair envR.ogDescCap envR.nameDescCap) fallbackRich) fallbackRich),
       [Effect.cacheLookup s, Effect.pageFetch s, Effect.llmCall,
        Effect.upsert (mkResultR s domR envR
          (extractedTitle envR.titleTagCap envR.ogTitleCap)
          (extractedPair envR.ogImageCap envR.imgSrcCap)
          (extractedPair envR.ogDescCap envR.nameDescCap) fallbackRich)]) ∧
    (∀ (t : String) (i d : Option String) (pre : List Effect),
      richAI s domR envR t i d pre =
        (.success (mkBodyR (mkResultR s domR envR t i d fallbackRich) fallbackRich),
         pre ++ [Effect.llmCall,
           Effect.upsert (mkResultR s domR envR t i d fallbackRich)])) := by
  refine ⟨?_, ?_, ?_⟩
  · have h := run_simple_success s domS envS hs hpS hfreshS hpageS hokS
    rw [hparseS] at h
    simpa using h
  · have h := run_rich_success s domR envR hs hpR hfreshR hpageR hokR
    rw [hparseR] at h
    simpa using h
  · intro t i d pre
    unfold richAI
    simp [hokR, hparseR]

/-- Witness for C4: a concrete unparseable-model-content run of both
variants, plus a concrete LLM step of the richer variant. -/
theorem c4_parse_failure_witness :
    handlerSimple (.str urlW) envW =
      (.success (mkBodyS (mkResultS urlW domW envW
          (extractedTitle envW.titleTagCap envW.ogTitleCap)
          (extractedPair envW.ogImageCap envW.imgSrcCap)
          (extractedPair envW.ogDescCap envW.nameDescCap) fallbackSimple)),
       [Effect.cacheLookup urlW, Effect.pageFetch urlW, Effect.llmCall,
        Effect.upsert (mkResultS urlW domW envW
          (extractedTitle envW.titleTagCap envW.ogTitleCap)
          (extractedPair envW.ogImageCap envW.imgSrcCap)
          (extractedPair envW.ogDescCap envW.nameDescCap) fallbackSimple)]) ∧
    handlerRich (.str urlW) envWR =
      (.success (mkBodyR (mkResultR urlW domW envWR
          (extractedTitle envWR.titleTagCap envWR.ogTitleCap)
          (extractedPair envWR.ogImageCap envWR.imgSrcCap)
          (extractedPair envWR.ogDescCap envWR.nameDescCap) fallbackRich) fallbackRich),
       [Effect.cacheLookup urlW, Effect.pageFetch urlW, Effect.llmCall,
        Effect.upsert (mkResultR urlW domW envWR
          (extractedTitle envWR.titleTagCap envWR.ogTitleCap)
          (extractedPair envWR.ogImageCap envWR.imgSrcCap)
          (extractedPair envWR.ogDescCap envWR.nameDescCap) fallbackRich)]) ∧
    richAI urlW domW envWR ("T") none none [] =
      (.success (mkBodyR (mkResultR urlW domW envWR ("T") none none fallbackRich)
          fallbackRich),
       [] ++ [Effect.llmCall,
         Effect.upsert (mkResultR urlW domW envWR ("T") none none fallbackRich)]) := by
  obtain ⟨h1, h2, h3⟩ := c4_parse_failure_fallback_200 urlW domW domW (by decide)
    envW envWR rfl rfl rfl rfl rfl rfl rfl rfl rfl rfl
  exact ⟨h1, h2, h3 ("T") none none []⟩

/-- Claim C5: when the LLM gateway answers 429, both variants return a 429
response with the rate-limit message and write nothing to the cache. -/
theorem c5_gateway_429_no_write (s domS domR : String) (hs : s ≠ "")
    (envS : EnvS) (envR : EnvR)
    (hpS : envS.parseURL s = some domS)
    (hfreshS : cacheFresh envS.cached envS.now = false)
    (hpageS : respOk envS.pageStatus = true)
    (haiS : envS.aiStatus = 429)
    (hpR : envR.parseURL s = some domR)
    (hfreshR : cacheFresh envR.cached envR.now = false)
    (haiR : envR.aiStatus = 429) :
    ((handlerSimple (.str s) envS).1
        = .error 429 "AI rate limit exceeded. Please try again later." ∧
      ∀ r, Effect.upsert r ∉ (handlerSimple (.str s) envS).2) ∧
    ((handlerRich (.str s) envR).1
        = .error 429 "AI rate limit exceeded. Please try again later." ∧
      ∀ r, Effect.upsert r ∉ (handlerRich (.str s) envR).2) := by
  have hnotS : respOk envS.aiStatus = false := by rw [haiS]; rfl
  have hnotR : respOk envR.aiStatus = false := by rw [haiR]; rfl
  obtain ⟨h1, h2⟩ := handlerSimple_ai_fail s domS envS hs hpS hfreshS hpageS hnotS
  obtain ⟨g1, g2, _⟩ := handlerRich_ai_fail s domR envR hs hpR hfreshR hnotR
  rw [haiS] at h1
  rw [haiR] at g1
  simp at h1 g1
  exact ⟨⟨h1, h2⟩, ⟨g1, g2⟩⟩

/-- Witness for C5: concrete gateway-429 runs (for the richer variant the
origin page also answers 429, exercising a fallback-free scrape branch). -/
theorem c5_gateway_429_witness :
    (handlerSimple (.str urlW) envW429S).1
      = .error 429 "AI rate limit exceeded. Please try again later." ∧
    Effect.upsert rsW ∉ (handlerSimple (.str urlW) envW429S).2 ∧
    (handlerRich (.str urlW) envW429R).1
      = .error 429 "AI rate limit exceeded. Please try again later." ∧
    Effect.upsert rrW ∉ (handlerRich (.str urlW) envW429R).2 := by
  obtain ⟨⟨h1, h2⟩, ⟨g1, g2⟩⟩ := c5_gateway_429_no_write urlW domW domW (by decide)
    envW429S envW429R rfl rfl rfl rfl rfl rfl rfl
  exact ⟨h1, h2 rsW, g1, g2 rrW⟩

/-- Claim C6: for every request whose url field is missing, not a string,
falsy, or fails URL parsing, both variants return a 400 error with an
empty effect trace — no cache lookup, no page fetch, no LLM call and no
write. -/
theorem c6_invalid_url_400_no_calls (envS : EnvS) (envR : EnvR) :
    ((∀ b, handlerSimple (.nonStr b) envS
        = (.error 400 "Valid product URL is required", [])) ∧
      handlerSimple .missing envS = (.error 400 "Valid product URL is required", []) ∧
      handlerSimple (.str "") envS = (.error 400 "Valid product URL is required", []) ∧
      ∀ s, s ≠ "" → envS.parseURL s = none →
        handlerSimple (.str s) envS = (.error 400 "Invalid URL format", [])) ∧
    ((∀ b, handlerRich (.nonStr b) envR
        = (.error 400 "Valid product URL is required", [])) ∧
      handlerRich .missing envR = (.error 400 "Valid product URL is required", []) ∧
      handlerRich (.str "") envR = (.error 400 "Valid product URL is required", []) ∧
      ∀ s, s ≠ "" → envR.parseURL s = none →
        handlerRich (.str s) envR = (.error 400 "Invalid URL format", [])) := by
  refine ⟨⟨fun b => rfl, rfl, by simp [handlerSimple], ?_⟩,
    ⟨fun b => rfl, rfl, by simp [handlerRich], ?_⟩⟩
  · intro s hs hp
    simp [handlerSimple, hs, hp]
  · intro s hs hp
    simp [handlerRich, hs, hp]

/-- Witness for C6: concrete invalid inputs of every kind against both
variants. -/
theorem c6_invalid_url_witness :
    handlerSimple (.nonStr true) envWbadS
      = (.error 400 "Valid product URL is required", []) ∧
    handlerSimple .missing envWbadS
      = (.error 400 "Valid product URL is required", []) ∧
    handlerSimple (.str "") envWbadS
      = (.error 400 "Valid product URL is required", []) ∧
    handlerSimple (.str ("not a url")) envWbadS
      = (.error 400 "Invalid URL format", []) ∧
    handlerRich (.nonStr false) envWbadR
      = (.error 400 "Valid product URL is required", []) ∧
    handlerRich .missing envWbadR
      = (.error 400 "Valid product URL is required", []) ∧
    handlerRich (.str "") envWbadR
      = (.error 400 "Valid product URL is required", []) ∧
    handlerRich (.str ("not a url")) envWbadR
      = (.error 400 "Invalid URL format", []) := by
  obtain ⟨⟨a1, a2, a3, a4⟩, ⟨b1, b2, b3, b4⟩⟩ :=
    c6_invalid_url_400_no_calls envWbadS envWbadR
  exact ⟨a1 true, a2, a3, a4 ("not a url") (by decide) rfl,
    b1 false, b2, b3, b4 ("not a url") (by decide) rfl⟩

/-- Claim C7: the pros/cons normalization truncates an array strictly
longer than the cap to exactly its first cap-many elements in original
order (`List.take`), yields the empty list on a non-array, and is applied
with caps 6/2 by the richer record builder and 3/3 by the simpler one. -/
theorem c7_pros_cons_truncation :
    ∀ (cap : Nat) (l : List String),
      jsArrSlice cap (some l) = l.take cap ∧
      (cap < l.length → (jsArrSlice cap (some l)).length = cap) ∧
      jsArrSlice cap (none : Option (List String)) = [] ∧
      (∀ (url dom t : String) (envR : EnvR) (i d : Option String) (a : AIAnalysisRich),
        (mkResultR url dom envR t i d a).pros = jsArrSlice 6 a.pros ∧
        (mkResultR url dom envR t i d a).cons = jsArrSlice 2 a.cons) ∧
      (∀ (url dom t : String) (envS : EnvS) (i d : Option String) (a : AIAnalysisSimple),
        (mkResultS url dom envS t i d a).pros = jsArrSlice 3 a.pros ∧
        (mkResultS url dom envS t i d a).cons = jsArrSlice 3 a.cons) := by
  intro cap l
  refine ⟨rfl, ?_, rfl,
    fun _ _ _ _ _ _ _ => ⟨rfl, rfl⟩, fun _ _ _ _ _ _ _ => ⟨rfl, rfl⟩⟩
  intro hlt
  simp [jsArrSlice]
  omega

/-- Witness for C7: a concrete over-long list truncated to cap 2, and the
record builders applied to the concrete fallback objects. -/
theorem c7_pros_cons_truncation_witness :
    jsArrSlice 2 (some ["a", "b", "c"]) = ["a", "b"] ∧
    (jsArrSlice 2 (some ["a", "b", "c"])).length = 2 ∧
    jsArrSlice 2 (none : Option (List String)) = [] ∧
    (mkResultR urlW domW envWR ("T") none none fallbackRich).pros
      = jsArrSlice 6 fallbackRich.pros ∧
    (mkResultS urlW domW envW ("T") none none fallbackSimple).cons
      = jsArrSlice 3 fallbackSimple.cons := by
  obtain ⟨h1, h2, h3, h4, h5⟩ := c7_pros_cons_truncation 2 ["a", "b", "c"]
  exact ⟨h1.trans (by decide), h2 (by decide), h3,
    (h4 urlW domW ("T") envWR none none fallbackRich).1,
    (h5 urlW domW ("T") envW none none fallbackSimple).2⟩

/-- Counterexample to claim C8: at a concrete request whose origin page
answers 429 (rate limit), the simpler handler returns status 500 — not
the 429 the claim asserts for origin-page rate limits. -/
theorem c8_origin_429_counterexample :
    (handlerSimple (.str urlW) envWpage429).1
      = .error 500 ("Unable to access this product page. The website is blocking automated requests. Try a different product or wait a few minutes.") ∧
    ((handlerSimple (.str urlW) envWpage429).1).status = 500 ∧
    ¬ ((handlerSimple (.str urlW) envWpage429).1).status = 429 := by
  refine ⟨rfl, rfl, ?_⟩
  intro h
  have h500 : ((handlerSimple (.str urlW) envWpage429).1).status = 500 := rfl
  rw [h500] at h
  simp at h

/-- Claim C8 as amended: LLM-gateway rate and quota errors are surfaced as
429 and 402 with user-facing messages, but an origin-page rate limit is
not surfaced as 429 — the simpler variant fails the request with status
500 and a bot-blocking explanatory message, and the richer variant does
not fail at the page step at all: it proceeds to the model call. -/
theorem c8_amended_upstream_error_mapping
    (s dom1 dom2 dom3 : String) (hs : s ≠ "")
    (env1 env2 : EnvS) (env3 : EnvR)
    (hp1 : env1.parseURL s = some dom1)
    (hfr1 : cacheFresh env1.cached env1.now = false)
    (hpg1 : env1.pageStatus = 429)
    (hp2 : env2.parseURL s = some dom2)
    (hfr2 : cacheFresh env2.cached env2.now = false)
    (hpg2 : respOk env2.pageStatus = true)
    (hnot2 : respOk env2.aiStatus = false)
    (hp3 : env3.parseURL s = some dom3)
    (hfr3 : cacheFresh env3.cached env3.now = false)
    (hnot3 : respOk env3.aiStatus = false) :
    (handlerSimple (.str s) env1).1 = .error 500 (pageErrMsg 429) ∧
    pageErrMsg 429
      = "Unable to access this product page. The website is blocking automated requests. Try a different product or wait a few minutes." ∧
    (handlerSimple (.str s) env2).1 =
      (if env2.aiStatus = 429 then
        .error 429 "AI rate limit exceeded. Please try again later."
      else if env2.aiStatus = 402 then
        .error 402 "AI credits exhausted. Please add credits to your workspace."
      else .error 500 "AI analysis failed") ∧
    (handlerRich (.str s) env3).1 =
      (if env3.aiStatus = 429 then
        .error 429 "AI rate limit exceeded. Please try again later."
      else if env3.aiStatus = 402 then
        .error 402 "AI credits exhausted. Please add credits to your workspace."
      else .error 500 "AI analysis failed") ∧
    Effect.llmCall ∈ (handlerRich (.str s) env3).2 := by
  refine ⟨?_, by decide,
    (handlerSimple_ai_fail s dom2 env2 hs hp2 hfr2 hpg2 hnot2).1,
    (handlerRich_ai_fail s dom3 env3 hs hp3 hfr3 hnot3).1,
    (handlerRich_ai_fail s dom3 env3 hs hp3 hfr3 hnot3).2.2⟩
  rw [handlerSimple_stale s dom1 env1 hs hp1 hfr1]
  unfold simpleFetch
  simp [hpg1, respOk]

/-- Witness for the amended C8: concrete origin-429 and gateway-402 runs
(the richer 402 run keeps the origin page healthy; its model call is in
the trace). -/
theorem c8_amended_witness :
    (handlerSimple (.str urlW) envWpage429).1 = .error 500 (pageErrMsg 429) ∧
    (handlerSimple (.str urlW) envW402S).1
      = .error 402 "AI credits exhausted. Please add credits to your workspace." ∧
    (handlerRich (.str urlW) envW402R).1
      = .error 402 "AI credits exhausted. Please add credits to your workspace." ∧
    Effect.llmCall ∈ (handlerRich (.str urlW) envW402R).2 := by
  obtain ⟨h1, _, h3, h4, h5⟩ := c8_amended_upstream_error_mapping urlW domW domW domW
    (by decide) envWpage429 envW402S envW402R rfl rfl rfl rfl rfl rfl rfl rfl rfl rfl
  exact ⟨h1, h3.trans (by decide), h4.trans (by decide), h5⟩

/-- Claim C9: the outcome of the cache upsert never affects the response —
flipping the upsert-error oracle leaves the returned value of either
variant unchanged on every input, and a request reaching the persistence
step still gets the 200 response built from the freshly computed result,
which is also the record being upserted. -/
theorem c9_upsert_outcome_ignored (uS uR : JsVal) (envS : EnvS) (envR : EnvR)
    (b1 b2 b3 b4 : Bool) (s domS : String) :
    ((handlerSimple uS { envS with upsertError := b1 }).1
        = (handlerSimple uS { envS with upsertError := b2 }).1) ∧
    ((handlerRich uR { envR with upsertError := b3 }).1
        = (handlerRich uR { envR with upsertError := b4 }).1) ∧
    (s ≠ "" → envS.parseURL s = some domS →
      cacheFresh envS.cached envS.now = false →
      respOk envS.pageStatus = true → respOk envS.aiStatus = true →
      (handlerSimple (.str s) envS).1
          = .success (mkBodyS (mkResultS s domS envS
              (extractedTitle envS.titleTagCap envS.ogTitleCap)
              (extractedPair envS.ogImageCap envS.imgSrcCap)
              (extractedPair envS.ogDescCap envS.nameDescCap)
              (envS.aiParse.getD fallbackSimple))) ∧
        Effect.upsert (mkResultS s domS envS
            (extractedTitle envS.titleTagCap envS.ogTitleCap)
            (extractedPair envS.ogImageCap envS.imgSrcCap)
            (extractedPair envS.ogDescCap envS.nameDescCap)
            (envS.aiParse.getD fallbackSimple))
          ∈ (handlerSimple (.str s) envS).2) := by
  refine ⟨?_, ?_, ?_⟩
  · cases uS <;> simp [handlerSimple, simpleFetch, simpleAI, mkResultS, mkBodyS]
  · cases uR <;> simp [handlerRich, richFetch, richAI, mkResultR, mkBodyR]
  · intro hs hp hfr hpage hok
    rw [run_simple_success s domS envS hs hp hfr hpage hok]
    exact ⟨rfl, by simp⟩

/-- Witness for C9: flipping the upsert outcome at a concrete run leaves
the response unchanged, and the concrete persistence run returns the 200
body of the freshly computed record. -/
theorem c9_upsert_outcome_witness :
    ((handlerSimple (.str urlW) { envW with upsertError := true }).1
        = (handlerSimple (.str urlW) { envW with upsertError := false }).1) ∧
    ((handlerRich (.str urlW) { envWR with upsertError := true }).1
        = (handlerRich (.str urlW) { envWR with upsertError := false }).1) ∧
    (handlerSimple (.str urlW) envW).1 = .success (mkBodyS rsW) ∧
    Effect.upsert rsW ∈ (handlerSimple (.str urlW) envW).2 := by
  obtain ⟨w1, w2, w3⟩ := c9_upsert_outcome_ignored (.str urlW) (.str urlW) envW envWR
    true false true false urlW domW
  obtain ⟨w4, w5⟩ := w3 (by decide) rfl rfl rfl rfl
  exact ⟨w1, w2, w4, w5⟩

/-- Claim C10: the metadata extractor deletes every double-quote character
from the matched capture group (a global replace with the empty string) —
so extracted titles, images and descriptions are quote-free, and a title
containing quotes is returned altered, not verbatim. -/
theorem c10_extractMeta_strips_quotes :
    ∀ (s : String) (t1 t2 a b : Option String),
      extractMeta (some s) = some (removeQuotes s) ∧
      (∀ c ∈ (removeQuotes s).data, c ≠ '"') ∧
      (∀ c ∈ (extractedTitle t1 t2).data, c ≠ '"') ∧
      (∀ v, extractedPair a b = some v → ∀ c ∈ v.data, c ≠ '"') ∧
      removeQuotes ("Nice \"Pro\" Widget") = "Nice Pro Widget" ∧
      ¬ removeQuotes ("Nice \"Pro\" Widget") = "Nice \"Pro\" Widget" := by
  intro s t1 t2 a b
  exact ⟨rfl, removeQuotes_no_quote s, extractedTitle_no_quote t1 t2,
    extractedPair_no_quote a b, by decide, by decide⟩

/-- Witness for C10: concrete quoted captures, with the quote-free facts
instantiated at concrete characters. -/
theorem c10_extractMeta_strips_quotes_witness :
    extractMeta (some ("x\"y")) = some (removeQuotes ("x\"y")) ∧
    'y' ≠ '"' ∧
    'P' ≠ '"' ∧
    'x' ≠ '"' ∧
    removeQuotes ("Nice \"Pro\" Widget") = "Nice Pro Widget" ∧
    ¬ removeQuotes ("Nice \"Pro\" Widget") = "Nice \"Pro\" Widget" := by
  obtain ⟨h1, h2, h3, h4, h5, h6⟩ := c10_extractMeta_strips_quotes ("x\"y")
    (some ("\"Pro\"")) none (some ("x\"y")) none
  exact ⟨h1, h2 'y' (by decide), h3 'P' (by decide),
    h4 ("xy") (by decide) 'x' (by decide), h5, h6⟩

end QuickCritic
